import Mathlib

/-!
# Mari8X port-intelligence core: shallow embedding

Shallow embedding of the congestion classifier (`getPortCongestion`,
`src/backend/prisma/seed.ts`), the pre-arrival predictor
(`getPreArrivalVessels`, `src/backend/src/agent/vessel-registry.ts`) and the
alert engine (`evaluateAlerts` and its helpers, `src/unnamed/part_001`).

Numbers are modelled as exact rationals (`ℚ`).  The spherical-geometry
oracles `haversineNm` and `bearingDeg` are trigonometric and therefore not
embedded; each position fix carries the distance to the port and the bearing
to the port that those functions would produce, as inputs.  Timestamps are
milliseconds since epoch (`ℤ`), matching `Date.now()` /
`new Date(..).getTime()`.  JavaScript `Math.round` (round half towards +∞,
all values in play are nonnegative) is `jround`.
-/

set_option maxRecDepth 8192

namespace Mari8x

/-- JavaScript `Math.round`: round half up (towards +∞). -/
def jround (x : ℚ) : ℤ := ⌊x + 1/2⌋

/-- `Math.round(x * 10) / 10`: rounding to one decimal, as applied to every
reported numeric field (`distanceNm`, `speedKt`, `etaHours`). -/
def round10 (x : ℚ) : ℚ := (jround (x * 10) : ℚ) / 10

/-- JavaScript `a % 360` for nonnegative `a` (used by `headingDiff`, whose
argument `Math.abs(a - b)` is nonnegative, where `%` is truncated = floored). -/
def mod360 (x : ℚ) : ℚ := x - 360 * (⌊x / 360⌋ : ℤ)

/-- `headingDiff` (vessel-registry.ts): absolute angular difference between
two headings, wrapped to at most 180°. -/
def headingDiff (a b : ℚ) : ℚ :=
  let diff := mod360 |a - b|
  if diff > 180 then 360 - diff else diff

-- ── Data model ────────────────────────────────────────────────────────────────

/-- A port-directory row: `prisma.port.findUnique` result.  `lat`/`lng` are
nullable in the schema. -/
structure Port where
  unlocode : String
  name     : String
  country  : String
  lat      : Option ℚ
  lng      : Option ℚ
deriving DecidableEq, Repr

/-- One AIS position fix, deduplicated to the most recent per vessel.
`dist` is `haversineNm(port, fix)` and `bearing` is
`bearingDeg(fix, port)` — the geometry oracles evaluated against the queried
port; `speed`, `heading`, `navigationStatus` are the nullable columns. -/
structure Fix where
  vesselId         : String
  imo              : String
  name             : String
  dist             : ℚ
  bearing          : ℚ
  speed            : Option ℚ
  heading          : Option ℚ
  navigationStatus : Option ℤ
  timestamp        : ℤ
deriving DecidableEq, Repr

/-- Deduplicate — keep only the most recent position per vessel (the input is
most-recent-first, so: keep the first occurrence of each `vesselId`). -/
def dedupeByVessel : List Fix → List Fix :=
  go []
where
  go (seen : List String) : List Fix → List Fix
    | [] => []
    | p :: ps =>
      if p.vesselId ∈ seen then go seen ps
      else p :: go (p.vesselId :: seen) ps

-- ── Congestion classifier (seed.ts) ──────────────────────────────────────────

/-- `STOPPED_NAV_STATUS = new Set([1, 5, 6])` — 1=AT_ANCHOR 5=MOORED 6=AGROUND. -/
def STOPPED_NAV_STATUS : List ℤ := [1, 5, 6]

inductive Zone | anchorage | approach | transit
deriving DecidableEq, Repr

inductive Level | low | moderate | high | critical
deriving DecidableEq, Repr

/-- The zone decision of the classification loop in `getPortCongestion`,
applied to a fix that survived the 25 nm scan-radius filter; `speed` and
`navStatus` are already defaulted (`p.speed ?? 0`, `p.navigationStatus ?? -1`). -/
def classifyZone (dist speed : ℚ) (navStatus : ℤ) : Zone :=
  if dist ≤ 8 ∧ (speed ≤ 2 ∨ navStatus ∈ STOPPED_NAV_STATUS) then .anchorage
  else if dist ≤ 20 ∧ speed ≤ 5 then .approach
  else .transit

/-- One row of the exposed vessel list (`VesselSighting`). -/
structure VesselSighting where
  imo        : String
  name       : String
  distanceNm : ℚ
  speedKt    : ℚ
  heading    : Option ℚ
  navStatus  : Option ℤ
  zone       : Zone
deriving DecidableEq, Repr

/-- The congestion snapshot (`CongestionData`), without the presentation-only
`updatedAt` ISO string. -/
structure CongestionData where
  port               : Port
  anchorageVessels   : ℕ
  approachVessels    : ℕ
  transitVessels     : ℕ
  congestionScore    : ℕ
  level              : Level
  estimatedWaitHours : ℕ
  detentionCostUsd   : ℤ
  vessels            : List VesselSighting
  dataWindowHours    : ℕ
deriving DecidableEq, Repr

/-- The classification loop of `getPortCongestion`: zone counts plus the
sighting rows, over the deduplicated positions, skipping fixes beyond 25 nm. -/
def congestionCounts : List Fix → ℕ × ℕ × ℕ × List VesselSighting
  | [] => (0, 0, 0, [])
  | p :: ps =>
    let rest := congestionCounts ps
    if p.dist > 25 then rest
    else
      let speed := p.speed.getD 0
      let navStatus := p.navigationStatus.getD (-1)
      let zone := classifyZone p.dist speed navStatus
      let row : VesselSighting :=
        { imo := p.imo, name := p.name, distanceNm := round10 p.dist,
          speedKt := round10 speed, heading := p.heading,
          navStatus := p.navigationStatus, zone := zone }
      match zone with
      | .anchorage => (rest.1 + 1, rest.2.1, rest.2.2.1, row :: rest.2.2.2)
      | .approach  => (rest.1, rest.2.1 + 1, rest.2.2.1, row :: rest.2.2.2)
      | .transit   => (rest.1, rest.2.1, rest.2.2.1 + 1, row :: rest.2.2.2)

/-- The level step function (`score >= 50 ? 'critical' : ...`). -/
def levelOf (score : ℕ) : Level :=
  if score ≥ 50 then .critical
  else if score ≥ 25 then .high
  else if score ≥ 10 then .moderate
  else .low

/-- Core of `getPortCongestion` once the port has coordinates: classify the
deduplicated recent positions, score, level, wait/cost estimates, and the
distance-ranked sighting list capped at 25 rows. -/
def computeCongestion (port : Port) (rawPositions : List Fix) : CongestionData :=
  let positions := dedupeByVessel rawPositions
  let (anchorage, approach, transit, sightings) := congestionCounts positions
  let sorted := sightings.mergeSort (fun a b => a.distanceNm ≤ b.distanceNm)
  let score := anchorage * 15 + approach * 5
  let waitHours := anchorage * 6 + approach * 2
  { port := port
    anchorageVessels := anchorage
    approachVessels := approach
    transitVessels := transit
    congestionScore := score
    level := levelOf score
    estimatedWaitHours := waitHours
    detentionCostUsd := jround ((waitHours : ℚ) * 500)
    vessels := sorted.take 25
    dataWindowHours := 6 }

/-- `getPortCongestion`: `null` when the port is absent from the directory or
has no coordinates, otherwise the computed snapshot.  The 60-second
memoization cache and the high/critical alert side effects are I/O and are
not part of the returned value. -/
def getPortCongestion (port : Option Port) (rawPositions : List Fix) :
    Option CongestionData :=
  match port with
  | none => none
  | some port =>
    if port.lat = none ∨ port.lng = none then none
    else some (computeCongestion port rawPositions)

-- ── Pre-arrival predictor (vessel-registry.ts) ───────────────────────────────

def SEARCH_RADIUS_NM : ℚ := 200
def MIN_SPEED_KT : ℚ := 3
def MAX_HEADING_DIFF : ℚ := 45

inductive Confidence | high | medium | low
deriving DecidableEq, Repr

/-- One row of the pre-arrival list (`PreArrivalVessel`).  `etaAtMs` is the
epoch-milliseconds value behind the `etaAt` ISO string; `lastSeen` is the
fix's timestamp. -/
structure PreArrivalVessel where
  imo           : String
  name          : String
  distanceNm    : ℚ
  speedKt       : ℚ
  heading       : Option ℚ
  bearingToPort : ℤ
  etaHours      : ℚ
  etaAtMs       : ℚ
  confidence    : Confidence
  lastSeen      : ℤ
deriving DecidableEq, Repr

/-- The per-candidate body of the loop in `getPreArrivalVessels`: `none` when
the fix is discarded (outside 200 nm, below 3 kn, heading more than 45° off
the bearing to port, or ETA beyond the window), otherwise the produced row. -/
def preArrivalStep (windowHours : ℚ) (now : ℤ) (p : Fix) :
    Option PreArrivalVessel :=
  if p.dist > SEARCH_RADIUS_NM then none
  else
    let speed := p.speed.getD 0
    if speed < MIN_SPEED_KT then none
    else
      let inbound : Bool := match p.heading with
        | some hdg => decide (headingDiff hdg p.bearing ≤ MAX_HEADING_DIFF)
        | none => true
      if !inbound then none
      else
        let etaHours := p.dist / speed
        if etaHours > windowHours then none
        else
          let confidence : Confidence := match p.heading with
            | some hdg =>
              let diff := headingDiff hdg p.bearing
              if diff ≤ 15 then .high else if diff ≤ 30 then .medium else .low
            | none => .medium
          some
            { imo := p.imo, name := p.name
              distanceNm := round10 p.dist
              speedKt := round10 speed
              heading := p.heading
              bearingToPort := jround p.bearing
              etaHours := round10 etaHours
              etaAtMs := (now : ℚ) + etaHours * 3600000
              confidence := confidence
              lastSeen := p.timestamp }

/-- The pre-arrival report (`PreArrivalReport`), without the presentation-only
`generatedAt` ISO string. -/
structure PreArrivalReport where
  port           : Port
  windowHours    : ℚ
  inboundVessels : ℕ
  vessels        : List PreArrivalVessel
deriving DecidableEq, Repr

/-- `getPreArrivalVessels`: `null` when the port is absent or has no
coordinates; otherwise the surviving candidates sorted by ascending ETA. -/
def getPreArrivalVessels (port : Option Port) (rawPositions : List Fix)
    (windowHours : ℚ) (now : ℤ) : Option PreArrivalReport :=
  match port with
  | none => none
  | some port =>
    if port.lat = none ∨ port.lng = none then none
    else
      let positions := dedupeByVessel rawPositions
      let vessels := (positions.filterMap (preArrivalStep windowHours now)).mergeSort
        (fun a b => a.etaHours ≤ b.etaHours)
      some
        { port := port
          windowHours := windowHours
          inboundVessels := vessels.length
          vessels := vessels }

-- ── Alert engine (src/unnamed/part_001) ──────────────────────────────────────

inductive AlertType | ETA_IMMINENT | DG_INBOUND | DOC_OVERDUE | HIGH_CONGESTION
deriving DecidableEq, Repr

inductive AlertSeverity | INFO | WARNING | CRITICAL
deriving DecidableEq, Repr

/-- A stored alert (`ArrivalAlert`).  The random-UUID `id` is generation I/O
and is omitted; `ts` (an ISO string in the store) is kept as the epoch
milliseconds behind it, which is what `isDuplicate` compares. -/
structure ArrivalAlert where
  ts           : ℤ
  portCode     : String
  type         : AlertType
  severity     : AlertSeverity
  imo          : String
  vesselName   : String
  message      : String
  acknowledged : Bool
deriving DecidableEq, Repr

/-- `AlertRules` configuration (`loadRules`). -/
structure AlertRules where
  etaThresholdHours : ℚ
  congestionLevels  : List String
  disabledTypes     : List AlertType
deriving DecidableEq, Repr

/-- The defaults used when no rules file is present. -/
def defaultRules : AlertRules :=
  { etaThresholdHours := 6
    congestionLevels := ["high", "critical"]
    disabledTypes := [] }

/-- The JSON string value of a congestion level, as matched against
`rules.congestionLevels`. -/
def levelStr : Level → String
  | .low => "low"
  | .moderate => "moderate"
  | .high => "high"
  | .critical => "critical"

/-- `DEDUP_WINDOW = 60 * 60_000` — 1-hour dedup window, in milliseconds. -/
def DEDUP_WINDOW : ℤ := 60 * 60000

/-- One nonempty line of a port's JSONL alert log: `some a` when
`JSON.parse` succeeds, `none` when the line is unparsable. -/
abbrev LogLine := Option ArrivalAlert

/-- `loadAlerts`: cap at the last 500 lines, then parse each line and drop
the failures. -/
def loadAlerts (lines : List LogLine) : List ArrivalAlert :=
  (lines.drop (lines.length - 500)).filterMap id

/-- `persistAlert`: append one line to the port's JSONL store. -/
def persistAlert (lines : List LogLine) (a : ArrivalAlert) : List LogLine :=
  lines ++ [some a]

/-- `isDuplicate`: an unacknowledged alert of the same (type, imo) fired
within the last `DEDUP_WINDOW` exists among the loaded alerts. -/
def isDuplicate (existing : List ArrivalAlert) (t : AlertType) (imo : String)
    (now : ℤ) : Bool :=
  existing.any fun a =>
    decide (a.type = t) && decide (a.imo = imo) && !a.acknowledged &&
    decide (now - a.ts < DEDUP_WINDOW)

/-- `makeAlert`: a fresh unacknowledged alert stamped with the current time. -/
def makeAlert (now : ℤ) (portCode : String) (t : AlertType)
    (severity : AlertSeverity) (imo name message : String) : ArrivalAlert :=
  { ts := now
    portCode := portCode.toUpper
    type := t
    severity := severity
    imo := imo
    vesselName := name
    message := message
    acknowledged := false }

/-- One firing of an alert condition against the persistent log, as performed
by every branch of `evaluateAlerts`: the dedup scan over the loaded alerts,
then `persistAlert` when no duplicate is found. -/
def fireCondition (lines : List LogLine) (a : ArrivalAlert) : List LogLine :=
  if isDuplicate (loadAlerts lines) a.type a.imo a.ts then lines
  else persistAlert lines a

/-- A document checklist row as consulted by `evaluateAlerts`
(`listOpenChecklists`). -/
structure ChecklistDoc where
  id     : String
  status : String
deriving DecidableEq, Repr

structure Checklist where
  imo          : String
  portUnlocode : String
  voyageId     : String
  overdue      : ℕ
  documents    : Option (List ChecklistDoc)
deriving DecidableEq, Repr

/-- Numeric rendering inside alert messages (`toFixed`/`toLocaleString`
display formatting abbreviated to `toString`). -/
def fmtQ (q : ℚ) : String := toString q

/-- The HIGH_CONGESTION branch of `evaluateAlerts`. -/
def highCongestionAlert (rules : AlertRules) (existing : List ArrivalAlert)
    (portCode : String) (congestion : Option CongestionData) (now : ℤ) :
    Option ArrivalAlert :=
  let portUpper := portCode.toUpper
  match congestion with
  | none => none
  | some c =>
    if AlertType.HIGH_CONGESTION ∉ rules.disabledTypes ∧
        levelStr c.level ∈ rules.congestionLevels then
      let imo := "PORT_" ++ portUpper
      let name := c.port.name
      if isDuplicate existing .HIGH_CONGESTION imo now then none
      else
        let sev : AlertSeverity :=
          if c.level = .critical then .CRITICAL else .WARNING
        some (makeAlert now portCode .HIGH_CONGESTION sev imo name
          (name ++ " congestion level " ++ (levelStr c.level).toUpper ++
           " — score " ++ toString c.congestionScore ++ ", " ++
           toString (c.anchorageVessels + c.approachVessels) ++
           " vessels, est. wait " ++ toString c.estimatedWaitHours ++ "h"))
    else none

/-- The ETA_IMMINENT branch of `evaluateAlerts`, per vessel. -/
def etaImminentAlert (rules : AlertRules) (existing : List ArrivalAlert)
    (portCode : String) (v : PreArrivalVessel) (now : ℤ) :
    Option ArrivalAlert :=
  if AlertType.ETA_IMMINENT ∉ rules.disabledTypes ∧
      v.etaHours ≤ rules.etaThresholdHours ∧
      isDuplicate existing .ETA_IMMINENT v.imo now = false then
    let sev : AlertSeverity := if v.etaHours ≤ 2 then .CRITICAL else .WARNING
    some (makeAlert now portCode .ETA_IMMINENT sev v.imo v.name
      (v.name ++ " (" ++ v.imo ++ ") ETA " ++ fmtQ v.etaHours ++ "h — " ++
       fmtQ v.distanceNm ++ "nm at " ++ fmtQ v.speedKt ++ "kt"))
  else none

/-- The DOC_OVERDUE branch of `evaluateAlerts`, per vessel. -/
def docOverdueAlert (rules : AlertRules) (existing : List ArrivalAlert)
    (portCode : String) (openDocs : List Checklist) (v : PreArrivalVessel)
    (now : ℤ) : Option ArrivalAlert :=
  let portUpper := portCode.toUpper
  if AlertType.DOC_OVERDUE ∉ rules.disabledTypes then
    match openDocs.find? fun c =>
        decide (c.imo = v.imo) && decide (c.portUnlocode = portUpper) with
    | none => none
    | some checklist =>
      if checklist.overdue > 0 ∧
          isDuplicate existing .DOC_OVERDUE v.imo now = false then
        some (makeAlert now portCode .DOC_OVERDUE .WARNING v.imo v.name
          (v.name ++ " (" ++ v.imo ++ ") has " ++ toString checklist.overdue ++
           " overdue document(s) — voyage " ++ checklist.voyageId ++
           ", ETA " ++ fmtQ v.etaHours ++ "h"))
      else none
  else none

/-- The DG_INBOUND branch of `evaluateAlerts`, per vessel. -/
def dgInboundAlert (rules : AlertRules) (existing : List ArrivalAlert)
    (portCode : String) (openDocs : List Checklist) (v : PreArrivalVessel)
    (now : ℤ) : Option ArrivalAlert :=
  let portUpper := portCode.toUpper
  if AlertType.DG_INBOUND ∉ rules.disabledTypes then
    match openDocs.find? fun c =>
        decide (c.imo = v.imo) && decide (c.portUnlocode = portUpper) with
    | none => none
    | some checklist =>
      match (checklist.documents.getD []).find? fun d =>
          decide (d.id = "dangerous-goods") && decide (d.status = "submitted") with
      | none => none
      | some _ =>
        if isDuplicate existing .DG_INBOUND v.imo now = false then
          some (makeAlert now portCode .DG_INBOUND .WARNING v.imo v.name
            (v.name ++ " (" ++ v.imo ++
             ") has dangerous goods declared — DG doc submitted for voyage " ++
             checklist.voyageId))
        else none
  else none

/-- The vessel list of an optional report (`preArrival?.vessels ?? []`). -/
def vesselsOf : Option PreArrivalReport → List PreArrivalVessel
  | none => []
  | some r => r.vessels

/-- `evaluateAlerts`: load the existing alerts once, evaluate the port-level
HIGH_CONGESTION rule and then the three per-vessel rules for each pre-arrival
vessel, against that snapshot.  Returns the alerts fired in this pass and the
log with each of them appended (notification delivery is fire-and-forget I/O
and does not affect either). -/
def evaluateAlerts (rules : AlertRules) (lines : List LogLine)
    (portCode : String) (congestion : Option CongestionData)
    (preArrival : Option PreArrivalReport) (openDocs : List Checklist)
    (now : ℤ) : List ArrivalAlert × List LogLine :=
  let existing := loadAlerts lines
  let fired :=
    (highCongestionAlert rules existing portCode congestion now).toList ++
    (vesselsOf preArrival).flatMap fun v =>
      (etaImminentAlert rules existing portCode v now).toList ++
      (docOverdueAlert rules existing portCode openDocs v now).toList ++
      (dgInboundAlert rules existing portCode openDocs v now).toList
  (fired, lines ++ fired.map some)

-- ── Concrete fixtures for boundary and scenario checks ───────────────────────

/-- The example port of spec §8: (1.2644, 103.8217). -/
def testPort : Port :=
  { unlocode := "SGSIN", name := "Singapore", country := "SG"
    lat := some (12644/10000), lng := some (1038217/10000) }

/-- A directory entry with no latitude. -/
def noCoordPort : Port :=
  { unlocode := "XXXXX", name := "Nowhere", country := "XX"
    lat := none, lng := some 0 }

/-- A fix with the given distance/speed/heading/status, bearing-to-port 0. -/
def mkFix (vid : String) (d : ℚ) (s : Option ℚ) (hdg : Option ℚ)
    (nav : Option ℤ) : Fix :=
  { vesselId := vid, imo := vid, name := vid, dist := d, bearing := 0
    speed := s, heading := hdg, navigationStatus := nav, timestamp := 0 }

/-- Spec §8 end-to-end scenario: 3 nm / 1 kn / at-anchor status, 15 nm / 4 kn,
22 nm / 12 kn. -/
def scenarioFixes : List Fix :=
  [mkFix "A" 3 (some 1) none (some 1),
   mkFix "B" 15 (some 4) none none,
   mkFix "C" 22 (some 12) none none]

/-- 100 nm, 10 kn, heading exactly 45° off the bearing to port. -/
def fix45 : Fix := mkFix "V45" 100 (some 10) (some 45) none

/-- 100 nm, 10 kn, heading 45.01° off the bearing to port. -/
def fix4501 : Fix := mkFix "V4501" 100 (some 10) (some (4501/100)) none

/-- 10 nm at 3 kn, no heading: ETA 10/3 h, which rounds to 3.3 h. -/
def roundFix : Fix := mkFix "VR" 10 (some 3) none none

/-- 100 nm at 10 kn, no heading: ETA exactly 10 h. -/
def etaFix : Fix := mkFix "VE" 100 (some 10) none none

/-- The row the predictor produces for `roundFix`: every reported numeric
field is rounded to one decimal, so `etaHours` is 3.3 while
`distanceNm / speedKt` is 10/3. -/
def roundVessel : PreArrivalVessel :=
  { imo := "VR", name := "VR", distanceNm := 10, speedKt := 3, heading := none
    bearingToPort := 0, etaHours := 33/10, etaAtMs := 12000000
    confidence := .medium, lastSeen := 0 }

/-- An ETA_IMMINENT alert for vessel 9700001 stamped at time `t` (ms). -/
def alertAt (t : ℤ) : ArrivalAlert :=
  { ts := t, portCode := "INMUN", type := .ETA_IMMINENT, severity := .WARNING
    imo := "9700001", vesselName := "TEST", message := "m"
    acknowledged := false }

/-- An unrelated alert (different vessel) used to displace log entries. -/
def otherAlert : ArrivalAlert :=
  { ts := 1000000, portCode := "INMUN", type := .ETA_IMMINENT
    severity := .WARNING, imo := "OTHER", vesselName := "OTHER", message := "m"
    acknowledged := false }

/-- A log whose oldest line is a recent matching alert, displaced beyond the
newest 500 lines by 500 later entries for another vessel. -/
def displacedLog : List LogLine :=
  some (alertAt 0) :: List.replicate 500 (some otherAlert)

-- ── Claims ───────────────────────────────────────────────────────────────────

/-- C1: within the 25 nm scan radius the classifier assigns exactly one zone
with the documented precedence — anchorage iff distance ≤ 8 nm and (speed ≤ 2
kn or a stopped navigation status); otherwise approach iff distance ≤ 20 nm
and speed ≤ 5 kn; otherwise transit.  At exactly 8.0 nm and 2.0 kn the zone
is anchorage; at 8.01 nm and 2.0 kn it is not; a fix farther than 25 nm from
the port contributes nothing to the snapshot's counts or vessel rows. -/
theorem C1_zone_classification :
    (∀ (dist speed : ℚ) (nav : ℤ), dist ≤ 25 →
      (classifyZone dist speed nav = .anchorage ↔
        dist ≤ 8 ∧ (speed ≤ 2 ∨ nav ∈ STOPPED_NAV_STATUS)) ∧
      (classifyZone dist speed nav = .approach ↔
        ¬(dist ≤ 8 ∧ (speed ≤ 2 ∨ nav ∈ STOPPED_NAV_STATUS)) ∧
          dist ≤ 20 ∧ speed ≤ 5) ∧
      (classifyZone dist speed nav = .transit ↔
        ¬(dist ≤ 8 ∧ (speed ≤ 2 ∨ nav ∈ STOPPED_NAV_STATUS)) ∧
          ¬(dist ≤ 20 ∧ speed ≤ 5))) ∧
    (∀ nav : ℤ, classifyZone 8 2 nav = .anchorage) ∧
    (∀ nav : ℤ, classifyZone (801/100) 2 nav ≠ .anchorage) ∧
    (∀ (p : Fix) (ps : List Fix), 25 < p.dist →
      congestionCounts (p :: ps) = congestionCounts ps) := by
  refine ⟨?_, ?_, ?_, ?_⟩
  · intro dist speed nav _
    unfold classifyZone
    split_ifs with h1 h2 <;> simp_all
  · intro nav
    unfold classifyZone
    rw [if_pos]
    exact ⟨le_refl _, Or.inl (le_refl _)⟩
  · intro nav
    unfold classifyZone
    rw [if_neg]
    · split_ifs <;> simp
    · rintro ⟨h, -⟩
      norm_num at h
  · intro p ps h
    show (let rest := congestionCounts ps; if p.dist > 25 then rest else _) =
      congestionCounts ps
    simp only []
    rw [if_pos h]

/-- C1 witness: concrete instances discharging each hypothesis. -/
theorem C1_zone_classification_witness :
    ((3 : ℚ) ≤ 25 ∧ classifyZone 3 1 (-1) = .anchorage) ∧
    (25 < (mkFix "X" 30 (some 9) none none).dist ∧
      congestionCounts [mkFix "X" 30 (some 9) none none] =
        congestionCounts []) := by
  constructor
  · refine ⟨by norm_num, ?_⟩
    exact ((C1_zone_classification.1 3 1 (-1) (by norm_num)).1).mpr
      ⟨by norm_num, Or.inl (by norm_num)⟩
  · refine ⟨by norm_num [mkFix], ?_⟩
    exact C1_zone_classification.2.2.2 _ [] (by norm_num [mkFix])

/-- `dedupeByVessel.go` only consults membership of the ids it scans. -/
theorem dedupe_go_congr (ps : List Fix) : ∀ s₁ s₂ : List String,
    (∀ x ∈ ps.map Fix.vesselId, (x ∈ s₁ ↔ x ∈ s₂)) →
    dedupeByVessel.go s₁ ps = dedupeByVessel.go s₂ ps := by
  induction ps with
  | nil => intro _ _ _; rfl
  | cons p ps ih =>
    intro s₁ s₂ h
    unfold dedupeByVessel.go
    have hp := h p.vesselId (by simp)
    by_cases hmem : p.vesselId ∈ s₁
    · rw [if_pos hmem, if_pos (hp.mp hmem)]
      exact ih _ _ fun x hx => h x (by simp [hx])
    · rw [if_neg hmem, if_neg fun hc => hmem (hp.mpr hc)]
      congr 1
      refine ih _ _ fun x hx => ?_
      simp only [List.mem_cons]
      exact or_congr Iff.rfl (h x (by simp [hx]))

/-- A fix whose vessel does not recur later in the window survives
deduplication at the head. -/
theorem dedupe_cons_not_mem (p : Fix) (ps : List Fix)
    (h : p.vesselId ∉ ps.map Fix.vesselId) :
    dedupeByVessel (p :: ps) = p :: dedupeByVessel ps := by
  have h1 : dedupeByVessel (p :: ps) =
      p :: dedupeByVessel.go [p.vesselId] ps := by
    show (if p.vesselId ∈ ([] : List String) then dedupeByVessel.go [] ps
      else p :: dedupeByVessel.go [p.vesselId] ps) = _
    rw [if_neg (List.not_mem_nil _)]
  rw [h1]
  congr 1
  refine dedupe_go_congr ps [p.vesselId] [] fun x hx => ?_
  simp only [List.mem_singleton, List.not_mem_nil, iff_false]
  rintro rfl
  exact h hx

/-- Processing a within-radius transit fix adds one to the transit count and
leaves the anchorage and approach counts unchanged. -/
theorem congestionCounts_cons_transit (p : Fix) (ps : List Fix)
    (h25 : ¬ p.dist > 25)
    (hz : classifyZone p.dist (p.speed.getD 0) (p.navigationStatus.getD (-1)) =
      .transit) :
    (congestionCounts (p :: ps)).1 = (congestionCounts ps).1 ∧
    (congestionCounts (p :: ps)).2.1 = (congestionCounts ps).2.1 ∧
    (congestionCounts (p :: ps)).2.2.1 = (congestionCounts ps).2.2.1 + 1 := by
  have : congestionCounts (p :: ps) =
      ((congestionCounts ps).1, (congestionCounts ps).2.1,
        (congestionCounts ps).2.2.1 + 1,
        { imo := p.imo, name := p.name, distanceNm := round10 p.dist,
          speedKt := round10 (p.speed.getD 0), heading := p.heading,
          navStatus := p.navigationStatus,
          zone := classifyZone p.dist (p.speed.getD 0)
            (p.navigationStatus.getD (-1)) } ::
          (congestionCounts ps).2.2.2) := by
    show (let rest := congestionCounts ps;
      if p.dist > 25 then rest else _) = _
    simp only [h25, if_false, hz]
  rw [this]
  exact ⟨rfl, rfl, rfl⟩

/-- C2: the congestion score is 15 per anchorage vessel plus 5 per approach
vessel — transit vessels never affect it — and the level is the step function
of the score with thresholds 50/25/10, so 49 maps to high, 50 to critical,
9 to low and 10 to moderate. -/
theorem C2_score_level :
    (∀ (port : Port) (ps : List Fix),
      (computeCongestion port ps).congestionScore =
        15 * (computeCongestion port ps).anchorageVessels +
        5 * (computeCongestion port ps).approachVessels ∧
      (computeCongestion port ps).level =
        levelOf (computeCongestion port ps).congestionScore) ∧
    (∀ (port : Port) (p : Fix) (ps : List Fix),
      p.vesselId ∉ ps.map Fix.vesselId → p.dist ≤ 25 →
      classifyZone p.dist (p.speed.getD 0) (p.navigationStatus.getD (-1)) =
        .transit →
      (computeCongestion port (p :: ps)).congestionScore =
        (computeCongestion port ps).congestionScore ∧
      (computeCongestion port (p :: ps)).transitVessels =
        (computeCongestion port ps).transitVessels + 1) ∧
    levelOf 49 = .high ∧ levelOf 50 = .critical ∧
    levelOf 9 = .low ∧ levelOf 10 = .moderate := by
  refine ⟨?_, ?_, by norm_num [levelOf], by norm_num [levelOf],
    by norm_num [levelOf], by norm_num [levelOf]⟩
  · intro port ps
    constructor
    · simp only [computeCongestion]
      ring
    · simp only [computeCongestion]
  · intro port p ps hmem hdist hz
    have h25 : ¬ p.dist > 25 := not_lt.2 hdist
    obtain ⟨h1, h2, h3⟩ :=
      congestionCounts_cons_transit p (dedupeByVessel ps) h25 hz
    refine ⟨?_, ?_⟩ <;>
      simp only [computeCongestion, dedupe_cons_not_mem p ps hmem, h1, h2, h3]

/-- C2 witness: the transit-vessel part applied to the 22 nm / 12 kn fix. -/
theorem C2_score_level_witness :
    ((mkFix "C" 22 (some 12) none none).vesselId ∉
        ([] : List Fix).map Fix.vesselId ∧
      (mkFix "C" 22 (some 12) none none).dist ≤ 25 ∧
      classifyZone (mkFix "C" 22 (some 12) none none).dist
        ((mkFix "C" 22 (some 12) none none).speed.getD 0)
        ((mkFix "C" 22 (some 12) none none).navigationStatus.getD (-1)) =
        .transit) ∧
    (computeCongestion testPort [mkFix "C" 22 (some 12) none none]).congestionScore
      = (computeCongestion testPort []).congestionScore := by
  have hz : classifyZone (mkFix "C" 22 (some 12) none none).dist
      ((mkFix "C" 22 (some 12) none none).speed.getD 0)
      ((mkFix "C" 22 (some 12) none none).navigationStatus.getD (-1)) =
      .transit := by
    norm_num [mkFix, classifyZone, STOPPED_NAV_STATUS]
  refine ⟨⟨by simp, by norm_num [mkFix], hz⟩, ?_⟩
  exact (C2_score_level.2.1 testPort _ [] (by simp) (by norm_num [mkFix]) hz).1

/-- Deduplication only removes fixes: every survivor was in the input. -/
theorem dedupe_go_subset (ps : List Fix) :
    ∀ (seen : List String) (f : Fix), f ∈ dedupeByVessel.go seen ps → f ∈ ps := by
  induction ps with
  | nil => intro seen f h; simp [dedupeByVessel.go] at h
  | cons p ps ih =>
    intro seen f h
    unfold dedupeByVessel.go at h
    by_cases hm : p.vesselId ∈ seen
    · rw [if_pos hm] at h
      exact List.mem_cons_of_mem _ (ih _ _ h)
    · rw [if_neg hm] at h
      rcases List.mem_cons.mp h with h | h
      · exact h ▸ List.mem_cons_self _ _
      · exact List.mem_cons_of_mem _ (ih _ _ h)

/-- When every fix lies beyond the 25 nm scan radius, the classification loop
produces zero counts and no sighting rows. -/
theorem congestionCounts_all_far (ps : List Fix) (h : ∀ f ∈ ps, 25 < f.dist) :
    congestionCounts ps = (0, 0, 0, []) := by
  induction ps with
  | nil => rfl
  | cons p ps ih =>
    have hp : p.dist > 25 := h p (List.mem_cons_self _ _)
    have hrest : congestionCounts ps = (0, 0, 0, []) :=
      ih fun f hf => h f (List.mem_cons_of_mem _ hf)
    show (let rest := congestionCounts ps;
      if p.dist > 25 then rest else _) = _
    simp only [if_pos hp]
    exact hrest

/-- C3: a congestion or pre-arrival query for a port absent from the
directory or without coordinates returns `none`, never a zero-filled
snapshot; a port with coordinates but no vessel within the scan radius
returns a valid snapshot with score 0, level low and an empty vessel list —
so the two outcomes are always distinguishable. -/
theorem C3_unavailable_vs_empty :
    (∀ (ps : List Fix) (w : ℚ) (now : ℤ),
      getPortCongestion none ps = none ∧
      getPreArrivalVessels none ps w now = none) ∧
    (∀ (port : Port) (ps : List Fix) (w : ℚ) (now : ℤ),
      port.lat = none ∨ port.lng = none →
      getPortCongestion (some port) ps = none ∧
      getPreArrivalVessels (some port) ps w now = none) ∧
    (∀ (port : Port) (ps : List Fix),
      port.lat ≠ none → port.lng ≠ none → (∀ f ∈ ps, 25 < f.dist) →
      getPortCongestion (some port) ps =
        some { port := port, anchorageVessels := 0, approachVessels := 0,
               transitVessels := 0, congestionScore := 0, level := .low,
               estimatedWaitHours := 0, detentionCostUsd := 0, vessels := [],
               dataWindowHours := 6 }) := by
  refine ⟨fun ps w now => ⟨rfl, rfl⟩, ?_, ?_⟩
  · intro port ps w now h
    refine ⟨?_, ?_⟩
    · simp only [getPortCongestion]
      rw [if_pos h]
    · simp only [getPreArrivalVessels]
      rw [if_pos h]
  · intro port ps hlat hlng hfar
    have hnot : ¬ (port.lat = none ∨ port.lng = none) := by
      rintro (h | h) <;> simp_all
    have hcounts : congestionCounts (dedupeByVessel ps) = (0, 0, 0, []) :=
      congestionCounts_all_far _ fun f hf =>
        hfar f (dedupe_go_subset ps [] f hf)
    simp only [getPortCongestion]
    rw [if_neg hnot]
    congr 1
    simp only [computeCongestion, hcounts]
    norm_num [levelOf, jround, CongestionData.mk.injEq, List.mergeSort_nil]

/-- C3 witness: a coordinate-less port vs. the example port with a single
out-of-radius fix. -/
theorem C3_unavailable_vs_empty_witness :
    ((noCoordPort.lat = none ∨ noCoordPort.lng = none) ∧
      getPortCongestion (some noCoordPort) [] = none) ∧
    (testPort.lat ≠ none ∧ testPort.lng ≠ none ∧
      (∀ f ∈ [mkFix "X" 30 (some 9) none none], 25 < f.dist) ∧
      getPortCongestion (some testPort) [mkFix "X" 30 (some 9) none none] =
        some { port := testPort, anchorageVessels := 0, approachVessels := 0,
               transitVessels := 0, congestionScore := 0, level := .low,
               estimatedWaitHours := 0, detentionCostUsd := 0, vessels := [],
               dataWindowHours := 6 }) := by
  have hfar : ∀ f ∈ [mkFix "X" 30 (some 9) none none], 25 < f.dist := by
    intro f hf
    simp only [List.mem_singleton] at hf
    subst hf
    norm_num [mkFix]
  refine ⟨⟨Or.inl rfl, ?_⟩, by simp [testPort], by simp [testPort], hfar, ?_⟩
  · exact (C3_unavailable_vs_empty.2.1 noCoordPort [] 48 0 (Or.inl rfl)).1
  · exact C3_unavailable_vs_empty.2.2 testPort _ (by simp [testPort])
      (by simp [testPort]) hfar

/-- C4: a candidate fix that reports a heading is inbound exactly when the
wrapped angular difference between heading and bearing-to-port is ≤ 45°
(45.00° inbound, 45.01° not), with confidence high at ≤ 15°, medium at ≤ 30°
and low beyond; a candidate with no heading is kept, with confidence medium. -/
theorem C4_heading_inbound :
    (∀ (w : ℚ) (now : ℤ) (p : Fix) (hdg : ℚ),
      p.heading = some hdg → p.dist ≤ 200 → 3 ≤ p.speed.getD 0 →
      p.dist / p.speed.getD 0 ≤ w →
      ((∃ v, preArrivalStep w now p = some v) ↔
        headingDiff hdg p.bearing ≤ 45)) ∧
    (∀ (w : ℚ) (now : ℤ) (p : Fix) (hdg : ℚ),
      p.heading = some hdg → p.dist ≤ 200 → 3 ≤ p.speed.getD 0 →
      p.dist / p.speed.getD 0 ≤ w → headingDiff hdg p.bearing ≤ 45 →
      ∃ v, preArrivalStep w now p = some v ∧
        v.confidence = (if headingDiff hdg p.bearing ≤ 15 then .high
          else if headingDiff hdg p.bearing ≤ 30 then .medium else .low)) ∧
    (∃ v, preArrivalStep 48 0 fix45 = some v) ∧
    preArrivalStep 48 0 fix4501 = none ∧
    (∀ (w : ℚ) (now : ℤ) (p : Fix),
      p.heading = none → p.dist ≤ 200 → 3 ≤ p.speed.getD 0 →
      p.dist / p.speed.getD 0 ≤ w →
      ∃ v, preArrivalStep w now p = some v ∧ v.confidence = .medium) := by
  refine ⟨?_, ?_, ?_, ?_, ?_⟩
  · intro w now p hdg hh hdist hspeed heta
    have h1 : ¬ p.dist > SEARCH_RADIUS_NM := not_lt.2 hdist
    have h2 : ¬ p.speed.getD 0 < MIN_SPEED_KT := not_lt.2 hspeed
    have h3 : ¬ p.dist / p.speed.getD 0 > w := not_lt.2 heta
    simp only [preArrivalStep, h1, if_false, h2, hh, h3]
    by_cases hle : headingDiff hdg p.bearing ≤ MAX_HEADING_DIFF
    · simp [hle, MAX_HEADING_DIFF]
    · simp only [MAX_HEADING_DIFF] at hle
      simp [hle, MAX_HEADING_DIFF]
  · intro w now p hdg hh hdist hspeed heta hle
    have h1 : ¬ p.dist > SEARCH_RADIUS_NM := not_lt.2 hdist
    have h2 : ¬ p.speed.getD 0 < MIN_SPEED_KT := not_lt.2 hspeed
    have h3 : ¬ p.dist / p.speed.getD 0 > w := not_lt.2 heta
    have hle' : headingDiff hdg p.bearing ≤ MAX_HEADING_DIFF := hle
    simp only [preArrivalStep, h1, if_false, h2, hh, h3, hle']
    simp [hle']
  · show ∃ v, preArrivalStep 48 0 fix45 = some v
    norm_num [preArrivalStep, fix45, mkFix, headingDiff, mod360,
      SEARCH_RADIUS_NM, MIN_SPEED_KT, MAX_HEADING_DIFF]
  · have habs : |(4501 : ℚ)/100| = 4501/100 := abs_of_nonneg (by norm_num)
    norm_num [preArrivalStep, fix4501, mkFix, headingDiff, mod360, habs,
      SEARCH_RADIUS_NM, MIN_SPEED_KT, MAX_HEADING_DIFF]
  · intro w now p hh hdist hspeed heta
    have h1 : ¬ p.dist > SEARCH_RADIUS_NM := not_lt.2 hdist
    have h2 : ¬ p.speed.getD 0 < MIN_SPEED_KT := not_lt.2 hspeed
    have h3 : ¬ p.dist / p.speed.getD 0 > w := not_lt.2 heta
    simp only [preArrivalStep, h1, if_false, h2, hh, h3]
    simp

/-- C4 witness: the 100 nm / 10 kn fix heading exactly 45° off, and the same
fix with no heading. -/
theorem C4_heading_inbound_witness :
    (fix45.heading = some 45 ∧ fix45.dist ≤ 200 ∧ 3 ≤ fix45.speed.getD 0 ∧
      fix45.dist / fix45.speed.getD 0 ≤ 48 ∧
      ((∃ v, preArrivalStep 48 0 fix45 = some v) ↔
        headingDiff 45 fix45.bearing ≤ 45)) ∧
    (etaFix.heading = none ∧
      ∃ v, preArrivalStep 48 0 etaFix = some v ∧ v.confidence = .medium) := by
  constructor
  · refine ⟨rfl, by norm_num [fix45, mkFix], by norm_num [fix45, mkFix],
      by norm_num [fix45, mkFix], ?_⟩
    exact C4_heading_inbound.1 48 0 fix45 45 rfl (by norm_num [fix45, mkFix])
      (by norm_num [fix45, mkFix]) (by norm_num [fix45, mkFix])
  · refine ⟨rfl, ?_⟩
    exact C4_heading_inbound.2.2.2.2 48 0 etaFix rfl
      (by norm_num [etaFix, mkFix]) (by norm_num [etaFix, mkFix])
      (by norm_num [etaFix, mkFix])

/-- Evaluating the predictor loop body on the 10 nm / 3 kn fix. -/
theorem preArrivalStep_roundFix :
    preArrivalStep 48 0 roundFix = some roundVessel := by
  norm_num [preArrivalStep, roundFix, mkFix, SEARCH_RADIUS_NM, MIN_SPEED_KT,
    round10, jround, roundVessel, PreArrivalVessel.mk.injEq]

/-- C5 counterexample: for the vessel 10 nm from the port at 3 kn the
reported `etaHours` is 3.3 (the one-decimal rounding of 10/3), while the
reported `distanceNm / speedKt` is 10/3 — the claimed field identity
`etaHours = distanceNm / speedKnots` fails on the returned list. -/
theorem C5_eta_rounding_counterexample :
    getPreArrivalVessels (some testPort) [roundFix] 48 0 =
      some { port := testPort, windowHours := 48, inboundVessels := 1,
             vessels := [roundVessel] } ∧
    roundVessel.etaHours ≠ roundVessel.distanceNm / roundVessel.speedKt := by
  constructor
  · simp [getPreArrivalVessels, testPort, dedupeByVessel, dedupeByVessel.go,
      List.filterMap_cons, preArrivalStep_roundFix]
  · norm_num [roundVessel]

/-- C5 (amended): for every vessel in the returned list, `etaHours` is the
one-decimal rounding of (exact distance / exact speed) — as are `distanceNm`
and `speedKt`, so the field identity holds only up to that rounding; no
vessel with exact speed below 3 kn or exact ETA beyond the window appears,
and 100 nm at 10 kn yields `etaHours` exactly 10.0. -/
theorem C5_eta_invariant_amended :
    (∀ (w : ℚ) (now : ℤ) (p : Fix) (v : PreArrivalVessel),
      preArrivalStep w now p = some v →
      v.etaHours = round10 (p.dist / p.speed.getD 0) ∧
      v.distanceNm = round10 p.dist ∧ v.speedKt = round10 (p.speed.getD 0) ∧
      3 ≤ p.speed.getD 0 ∧ p.dist / p.speed.getD 0 ≤ w) ∧
    (∀ (w : ℚ) (now : ℤ) (p : Fix), p.speed.getD 0 < 3 →
      preArrivalStep w now p = none) ∧
    (∀ (w : ℚ) (now : ℤ) (p : Fix), 3 ≤ p.speed.getD 0 →
      w < p.dist / p.speed.getD 0 → preArrivalStep w now p = none) ∧
    (∃ v, preArrivalStep 48 0 etaFix = some v ∧ v.etaHours = 10) := by
  refine ⟨?_, ?_, ?_, ?_⟩
  · intro w now p v h
    simp only [preArrivalStep] at h
    split_ifs at h with h1 h2 h3 h4
    simp only [Option.some.injEq] at h
    subst h
    exact ⟨rfl, rfl, rfl, not_lt.1 h2, not_lt.1 h4⟩
  · intro w now p h
    have h' : p.speed.getD 0 < MIN_SPEED_KT := h
    simp [preArrivalStep, h', ite_self]
  · intro w now p hs hw
    have h2 : ¬ p.speed.getD 0 < MIN_SPEED_KT := not_lt.2 hs
    have h4 : p.dist / p.speed.getD 0 > w := hw
    simp [preArrivalStep, h2, h4, ite_self]
  · show ∃ v, preArrivalStep 48 0 etaFix = some v ∧ v.etaHours = 10
    norm_num [preArrivalStep, etaFix, mkFix, SEARCH_RADIUS_NM, MIN_SPEED_KT,
      round10, jround]

/-- C5 witness: the amended invariant applied to the 10 nm / 3 kn vessel. -/
theorem C5_eta_invariant_amended_witness :
    preArrivalStep 48 0 roundFix = some roundVessel ∧
    roundVessel.etaHours = round10 (roundFix.dist / roundFix.speed.getD 0) := by
  exact ⟨preArrivalStep_roundFix,
    (C5_eta_invariant_amended.1 48 0 roundFix roundVessel
      preArrivalStep_roundFix).1⟩

/-- Rounding a whole number of dollars is the identity. -/
theorem jround_nat_mul_500 (n : ℕ) : jround ((n : ℚ) * 500) = (n : ℤ) * 500 := by
  have h : ((n : ℚ) * 500) = ((n * 500 : ℤ) : ℚ) := by push_cast; ring
  rw [jround, h, Int.floor_int_add]
  norm_num

/-- C8: the wait estimate is 6 h per anchorage vessel plus 2 h per approach
vessel, and the detention estimate is the wait times the 500 $/h rate; the
spec §8 scenario (3 nm / 1 kn / anchored, 15 nm / 4 kn, 22 nm / 12 kn) yields
counts 1/1/1, score 20, level moderate and 8 wait hours. -/
theorem C8_wait_cost_scenario :
    (∀ (port : Port) (ps : List Fix),
      (computeCongestion port ps).estimatedWaitHours =
        6 * (computeCongestion port ps).anchorageVessels +
        2 * (computeCongestion port ps).approachVessels ∧
      (computeCongestion port ps).detentionCostUsd =
        ((computeCongestion port ps).estimatedWaitHours : ℤ) * 500) ∧
    (computeCongestion testPort scenarioFixes).anchorageVessels = 1 ∧
    (computeCongestion testPort scenarioFixes).approachVessels = 1 ∧
    (computeCongestion testPort scenarioFixes).transitVessels = 1 ∧
    (computeCongestion testPort scenarioFixes).congestionScore = 20 ∧
    (computeCongestion testPort scenarioFixes).level = .moderate ∧
    (computeCongestion testPort scenarioFixes).estimatedWaitHours = 8 := by
  constructor
  · intro port ps
    constructor
    · simp only [computeCongestion]
      ring
    · simp only [computeCongestion]
      exact jround_nat_mul_500 _
  · norm_num [computeCongestion, congestionCounts, classifyZone,
      dedupeByVessel, dedupeByVessel.go, scenarioFixes, mkFix,
      STOPPED_NAV_STATUS, levelOf]

/-- C6: a firing whose (type, imo) pair matches an unacknowledged alert
recorded less than 60 minutes earlier in the loaded history stores nothing;
concretely, firing at t=0 stores one alert, re-firing 59 minutes later is
suppressed, and re-firing 61 minutes after the first firing stores a second
alert. -/
theorem C6_dedup_window :
    (∀ (lines : List LogLine) (a b : ArrivalAlert),
      b ∈ loadAlerts lines → b.type = a.type → b.imo = a.imo →
      b.acknowledged = false → 0 ≤ a.ts - b.ts → a.ts - b.ts < 60 * 60000 →
      fireCondition lines a = lines) ∧
    fireCondition [] (alertAt 0) = [some (alertAt 0)] ∧
    fireCondition [some (alertAt 0)] (alertAt (59 * 60000)) =
      [some (alertAt 0)] ∧
    fireCondition [some (alertAt 0)] (alertAt (61 * 60000)) =
      [some (alertAt 0), some (alertAt (61 * 60000))] := by
  refine ⟨?_, by decide, by decide, by decide⟩
  intro lines a b hmem htype himo hack _ hwin
  have hdup : isDuplicate (loadAlerts lines) a.type a.imo a.ts = true := by
    rw [isDuplicate, List.any_eq_true]
    refine ⟨b, hmem, ?_⟩
    simp [htype, himo, hack, DEDUP_WINDOW]
    omega
  rw [fireCondition, if_pos hdup]

/-- C6 witness: the suppression part applied to the 59-minute re-firing. -/
theorem C6_dedup_window_witness :
    (alertAt 0 ∈ loadAlerts [some (alertAt 0)] ∧
      (alertAt 0).type = (alertAt (59 * 60000)).type ∧
      (alertAt 0).imo = (alertAt (59 * 60000)).imo ∧
      (alertAt 0).acknowledged = false ∧
      0 ≤ (alertAt (59 * 60000)).ts - (alertAt 0).ts ∧
      (alertAt (59 * 60000)).ts - (alertAt 0).ts < 60 * 60000) ∧
    fireCondition [some (alertAt 0)] (alertAt (59 * 60000)) =
      [some (alertAt 0)] := by
  refine ⟨⟨by decide, rfl, rfl, rfl, by decide, by decide⟩, ?_⟩
  exact C6_dedup_window.1 [some (alertAt 0)] (alertAt (59 * 60000)) (alertAt 0)
    (by decide) rfl rfl rfl (by decide) (by decide)

/-- C9: a fix with no speed field is classified with speed 0 — within 8 nm it
is anchorage and between 8 and 20 nm it is approach, whatever the navigation
status — while the pre-arrival predictor always excludes it, 0 kn being below
the 3 kn movement floor. -/
theorem C9_missing_speed_defaults :
    (∀ p : Fix, p.speed = none → p.dist ≤ 8 →
      classifyZone p.dist (p.speed.getD 0) (p.navigationStatus.getD (-1)) =
        .anchorage) ∧
    (∀ p : Fix, p.speed = none → 8 < p.dist → p.dist ≤ 20 →
      classifyZone p.dist (p.speed.getD 0) (p.navigationStatus.getD (-1)) =
        .approach) ∧
    (∀ (w : ℚ) (now : ℤ) (p : Fix), p.speed = none →
      preArrivalStep w now p = none) := by
  refine ⟨?_, ?_, ?_⟩
  · intro p hsp hdist
    have h0 : p.speed.getD 0 = 0 := by rw [hsp]; rfl
    rw [h0, classifyZone, if_pos ⟨hdist, Or.inl (by norm_num)⟩]
  · intro p hsp hfar hdist
    have h0 : p.speed.getD 0 = 0 := by rw [hsp]; rfl
    rw [h0, classifyZone, if_neg, if_pos ⟨hdist, by norm_num⟩]
    rintro ⟨h8, -⟩
    exact absurd h8 (not_le.2 hfar)
  · intro w now p hsp
    have h0 : p.speed.getD 0 = 0 := by rw [hsp]; rfl
    have h2 : p.speed.getD 0 < MIN_SPEED_KT := by
      rw [h0, MIN_SPEED_KT]; norm_num
    simp [preArrivalStep, h2, ite_self]

/-- C9 witness: a speedless fix 5 nm out with a steaming navigation status. -/
theorem C9_missing_speed_defaults_witness :
    ((mkFix "NS" 5 none none (some 0)).speed = none ∧
      (mkFix "NS" 5 none none (some 0)).dist ≤ 8 ∧
      classifyZone (mkFix "NS" 5 none none (some 0)).dist
        ((mkFix "NS" 5 none none (some 0)).speed.getD 0)
        ((mkFix "NS" 5 none none (some 0)).navigationStatus.getD (-1)) =
        .anchorage) ∧
    preArrivalStep 48 0 (mkFix "NS" 5 none none (some 0)) = none := by
  refine ⟨⟨rfl, by norm_num [mkFix], ?_⟩, ?_⟩
  · exact C9_missing_speed_defaults.1 _ rfl (by norm_num [mkFix])
  · exact C9_missing_speed_defaults.2.2 48 0 _ rfl

/-- Parsing a run of identical well-formed lines yields the same run. -/
theorem filterMap_id_replicate_some (n : ℕ) (b : ArrivalAlert) :
    List.filterMap id (List.replicate n (some b)) = List.replicate n b := by
  induction n with
  | zero => rfl
  | succ n ih =>
    rw [List.replicate_succ, List.filterMap_cons]
    show b :: List.filterMap id (List.replicate n (some b)) = _
    rw [ih, List.replicate_succ]

set_option maxHeartbeats 1600000 in
/-- C10: the history read keeps only the newest 500 log lines and silently
drops unparsable ones, so a matching unacknowledged alert fired within the
hour but displaced beyond the newest 500 lines no longer suppresses a new
firing: on `displacedLog` the full file would report a duplicate, the capped
read does not, and the firing is stored. -/
theorem C10_log_cap :
    (∀ (l : LogLine) (lines : List LogLine), 500 ≤ lines.length →
      loadAlerts (l :: lines) = loadAlerts lines) ∧
    (∀ (lines : List LogLine) (a : ArrivalAlert),
      a ∈ loadAlerts lines → some a ∈ lines) ∧
    loadAlerts displacedLog = List.replicate 500 otherAlert ∧
    isDuplicate (displacedLog.filterMap id) (alertAt 0).type (alertAt 0).imo
      (30 * 60000) = true ∧
    isDuplicate (loadAlerts displacedLog) (alertAt 0).type (alertAt 0).imo
      (30 * 60000) = false ∧
    fireCondition displacedLog (alertAt (30 * 60000)) =
      displacedLog ++ [some (alertAt (30 * 60000))] := by
  have hload : loadAlerts displacedLog = List.replicate 500 otherAlert := by
    rw [loadAlerts, displacedLog]
    have hlen : (some (alertAt 0) ::
        List.replicate 500 (some otherAlert)).length - 500 = 1 := by
      rw [List.length_cons, List.length_replicate]
    rw [hlen, List.drop_succ_cons, List.drop_zero,
      filterMap_id_replicate_some]
  have hfull : isDuplicate (displacedLog.filterMap id) (alertAt 0).type
      (alertAt 0).imo (30 * 60000) = true := by
    rw [isDuplicate, List.any_eq_true]
    refine ⟨alertAt 0, ?_, by decide⟩
    rw [displacedLog, List.filterMap_cons]
    exact List.mem_cons_self _ _
  have hcapped : isDuplicate (loadAlerts displacedLog) (alertAt 0).type
      (alertAt 0).imo (30 * 60000) = false := by
    rw [hload]
    rw [Bool.eq_false_iff]
    intro hdup
    rw [isDuplicate, List.any_eq_true] at hdup
    obtain ⟨a, hmem, hpred⟩ := hdup
    rw [List.eq_of_mem_replicate hmem] at hpred
    exact absurd hpred (by decide)
  refine ⟨?_, ?_, hload, hfull, hcapped, ?_⟩
  · intro l lines h
    rw [loadAlerts, loadAlerts]
    congr 1
    have hlen : (l :: lines).length - 500 = (lines.length - 500) + 1 := by
      simp only [List.length_cons]
      omega
    rw [hlen, List.drop_succ_cons]
  · intro lines a hmem
    rw [loadAlerts] at hmem
    obtain ⟨b, hb, hba⟩ := List.mem_filterMap.mp hmem
    rw [id] at hba
    subst hba
    exact List.mem_of_mem_drop hb
  · rw [fireCondition]
    have : isDuplicate (loadAlerts displacedLog) (alertAt (30 * 60000)).type
        (alertAt (30 * 60000)).imo (alertAt (30 * 60000)).ts = false := hcapped
    rw [this]
    simp [persistAlert]

set_option maxHeartbeats 1600000 in
/-- C10 witness: the 500-line cap applied to the displaced log. -/
theorem C10_log_cap_witness :
    (500 ≤ (List.replicate 500 (some otherAlert) : List LogLine).length ∧
      loadAlerts (some (alertAt 0) :: List.replicate 500 (some otherAlert)) =
        loadAlerts (List.replicate 500 (some otherAlert))) ∧
    (alertAt 0 ∈ loadAlerts [some (alertAt 0)] ∧
      some (alertAt 0) ∈ ([some (alertAt 0)] : List LogLine)) := by
  have hlen : (List.replicate 500 (some otherAlert) : List LogLine).length =
      500 := List.length_replicate 500 _
  refine ⟨⟨le_of_eq hlen.symm, ?_⟩, ⟨by decide, ?_⟩⟩
  · exact C10_log_cap.1 (some (alertAt 0))
      (List.replicate 500 (some otherAlert)) (le_of_eq hlen.symm)
  · exact C10_log_cap.2.1 [some (alertAt 0)] (alertAt 0) (by decide)

/-- Without a congestion snapshot no HIGH_CONGESTION alert is built. -/
theorem highCongestionAlert_none (rules : AlertRules)
    (ex : List ArrivalAlert) (pc : String) (now : ℤ) :
    highCongestionAlert rules ex pc none now = none := rfl

/-- Any HIGH_CONGESTION alert built carries that type and the severity
derived from the snapshot's level. -/
theorem highCongestionAlert_spec (rules : AlertRules) (ex : List ArrivalAlert)
    (pc : String) (c : CongestionData) (now : ℤ) (a : ArrivalAlert)
    (h : highCongestionAlert rules ex pc (some c) now = some a) :
    a.type = .HIGH_CONGESTION ∧
    a.severity = (if c.level = .critical then .CRITICAL else .WARNING) := by
  simp only [highCongestionAlert] at h
  by_cases h1 : AlertType.HIGH_CONGESTION ∉ rules.disabledTypes ∧
      levelStr c.level ∈ rules.congestionLevels
  · rw [if_pos h1] at h
    cases hdup : isDuplicate ex .HIGH_CONGESTION ("PORT_" ++ pc.toUpper) now with
    | true =>
      rw [hdup, if_pos rfl] at h
      exact Option.noConfusion h
    | false =>
      rw [hdup, if_neg (by simp)] at h
      simp only [Option.some.injEq] at h
      subst h
      exact ⟨rfl, rfl⟩
  · rw [if_neg h1] at h
    exact Option.noConfusion h

/-- A HIGH_CONGESTION alert is built exactly when the type is enabled, the
level is in the alerting set, and no duplicate is pending. -/
theorem highCongestionAlert_isSome_iff (rules : AlertRules)
    (ex : List ArrivalAlert) (pc : String) (c : CongestionData) (now : ℤ) :
    (∃ a, highCongestionAlert rules ex pc (some c) now = some a) ↔
      (AlertType.HIGH_CONGESTION ∉ rules.disabledTypes ∧
        levelStr c.level ∈ rules.congestionLevels ∧
        isDuplicate ex .HIGH_CONGESTION ("PORT_" ++ pc.toUpper) now = false) := by
  simp only [highCongestionAlert]
  by_cases h1 : AlertType.HIGH_CONGESTION ∉ rules.disabledTypes ∧
      levelStr c.level ∈ rules.congestionLevels
  · rw [if_pos h1]
    cases hdup : isDuplicate ex .HIGH_CONGESTION ("PORT_" ++ pc.toUpper) now with
    | false =>
      rw [if_neg (by simp)]
      simp [h1.1, h1.2]
    | true =>
      rw [if_pos rfl]
      simp
  · rw [if_neg h1]
    constructor
    · rintro ⟨a, ha⟩
      exact Option.noConfusion ha
    · rintro ⟨hA, hB, -⟩
      exact absurd ⟨hA, hB⟩ h1

/-- Any alert built by a branch of `evaluateAlerts` carries that branch's
type (regardless of whether a snapshot exists). -/
theorem highCongestionAlert_type (rules : AlertRules) (ex : List ArrivalAlert)
    (pc : String) (cong : Option CongestionData) (now : ℤ) (a : ArrivalAlert)
    (h : highCongestionAlert rules ex pc cong now = some a) :
    a.type = .HIGH_CONGESTION := by
  cases cong with
  | none => exact Option.noConfusion h
  | some c => exact (highCongestionAlert_spec rules ex pc c now a h).1

/-- Any ETA_IMMINENT alert built carries that type, the vessel's imo and the
severity derived from the vessel's ETA. -/
theorem etaImminentAlert_spec (rules : AlertRules) (ex : List ArrivalAlert)
    (pc : String) (v : PreArrivalVessel) (now : ℤ) (a : ArrivalAlert)
    (h : etaImminentAlert rules ex pc v now = some a) :
    a.type = .ETA_IMMINENT ∧ a.imo = v.imo ∧
    a.severity = (if v.etaHours ≤ 2 then .CRITICAL else .WARNING) := by
  by_cases h1 : AlertType.ETA_IMMINENT ∉ rules.disabledTypes ∧
      v.etaHours ≤ rules.etaThresholdHours ∧
      isDuplicate ex .ETA_IMMINENT v.imo now = false
  · rw [etaImminentAlert, if_pos h1] at h
    simp only [Option.some.injEq] at h
    subst h
    exact ⟨rfl, rfl, rfl⟩
  · rw [etaImminentAlert, if_neg h1] at h
    exact Option.noConfusion h

/-- An ETA_IMMINENT alert is built exactly when the type is enabled, the ETA
is within the threshold, and no duplicate is pending. -/
theorem etaImminentAlert_isSome_iff (rules : AlertRules)
    (ex : List ArrivalAlert) (pc : String) (v : PreArrivalVessel) (now : ℤ) :
    (∃ a, etaImminentAlert rules ex pc v now = some a) ↔
      (AlertType.ETA_IMMINENT ∉ rules.disabledTypes ∧
        v.etaHours ≤ rules.etaThresholdHours ∧
        isDuplicate ex .ETA_IMMINENT v.imo now = false) := by
  by_cases h1 : AlertType.ETA_IMMINENT ∉ rules.disabledTypes ∧
      v.etaHours ≤ rules.etaThresholdHours ∧
      isDuplicate ex .ETA_IMMINENT v.imo now = false
  · rw [etaImminentAlert, if_pos h1]
    simp [h1.1, h1.2.1, h1.2.2]
  · rw [etaImminentAlert, if_neg h1]
    constructor
    · rintro ⟨a, ha⟩
      exact Option.noConfusion ha
    · intro hcond
      exact absurd hcond h1

/-- Any DOC_OVERDUE alert built carries that type and the vessel's imo. -/
theorem docOverdueAlert_spec (rules : AlertRules) (ex : List ArrivalAlert)
    (pc : String) (docs : List Checklist) (v : PreArrivalVessel) (now : ℤ)
    (a : ArrivalAlert)
    (h : docOverdueAlert rules ex pc docs v now = some a) :
    a.type = .DOC_OVERDUE ∧ a.imo = v.imo := by
  simp only [docOverdueAlert] at h
  by_cases h1 : AlertType.DOC_OVERDUE ∉ rules.disabledTypes
  · rw [if_pos h1] at h
    rcases hf : docs.find? fun c =>
        decide (c.imo = v.imo) && decide (c.portUnlocode = pc.toUpper) with
      _ | checklist
    · simp only [hf] at h
      exact Option.noConfusion h
    · simp only [hf] at h
      by_cases h2 : checklist.overdue > 0 ∧
          isDuplicate ex .DOC_OVERDUE v.imo now = false
      · rw [if_pos h2] at h
        simp only [Option.some.injEq] at h
        subst h
        exact ⟨rfl, rfl⟩
      · rw [if_neg h2] at h
        exact Option.noConfusion h
  · rw [if_neg h1] at h
    exact Option.noConfusion h

/-- Any DG_INBOUND alert built carries that type and the vessel's imo. -/
theorem dgInboundAlert_spec (rules : AlertRules) (ex : List ArrivalAlert)
    (pc : String) (docs : List Checklist) (v : PreArrivalVessel) (now : ℤ)
    (a : ArrivalAlert)
    (h : dgInboundAlert rules ex pc docs v now = some a) :
    a.type = .DG_INBOUND ∧ a.imo = v.imo := by
  simp only [dgInboundAlert] at h
  by_cases h1 : AlertType.DG_INBOUND ∉ rules.disabledTypes
  · rw [if_pos h1] at h
    rcases hf : docs.find? fun c =>
        decide (c.imo = v.imo) && decide (c.portUnlocode = pc.toUpper) with
      _ | checklist
    · simp only [hf] at h
      exact Option.noConfusion h
    · simp only [hf] at h
      rcases hd : (checklist.documents.getD []).find? fun d =>
          decide (d.id = "dangerous-goods") && decide (d.status = "submitted")
        with _ | doc
      · simp only [hd] at h
        exact Option.noConfusion h
      · simp only [hd] at h
        by_cases h2 : isDuplicate ex .DG_INBOUND v.imo now = false
        · rw [if_pos h2] at h
          simp only [Option.some.injEq] at h
          subst h
          exact ⟨rfl, rfl⟩
        · rw [if_neg h2] at h
          exact Option.noConfusion h
  · rw [if_neg h1] at h
    exact Option.noConfusion h

/-- The alerts fired by an evaluation pass are exactly the port-level
HIGH_CONGESTION alert and the three per-vessel alerts, each checked against
the history loaded once at the start. -/
theorem mem_evaluateAlerts (rules : AlertRules) (lines : List LogLine)
    (portCode : String) (congestion : Option CongestionData)
    (preArrival : Option PreArrivalReport) (openDocs : List Checklist)
    (now : ℤ) (a : ArrivalAlert) :
    a ∈ (evaluateAlerts rules lines portCode congestion preArrival openDocs
        now).1 ↔
      highCongestionAlert rules (loadAlerts lines) portCode congestion now =
        some a ∨
      ∃ v ∈ vesselsOf preArrival,
        (etaImminentAlert rules (loadAlerts lines) portCode v now = some a ∨
         docOverdueAlert rules (loadAlerts lines) portCode openDocs v now =
           some a ∨
         dgInboundAlert rules (loadAlerts lines) portCode openDocs v now =
           some a) := by
  simp [evaluateAlerts, List.mem_append, List.mem_flatMap, Option.mem_toList,
    Option.mem_def]

/-- C7: in an evaluation pass, a HIGH_CONGESTION alert fires for the port
exactly when a snapshot exists, its level is in the configured alerting set,
the type is not suppressed and no duplicate is pending — with severity
CRITICAL iff the level is critical; and an ETA_IMMINENT alert fires for a
pre-arrival vessel exactly when its `etaHours` is within the configured
threshold, the type is not suppressed and no duplicate is pending — with
severity CRITICAL when `etaHours` ≤ 2 h and WARNING otherwise. -/
theorem C7_alert_firing_conditions (rules : AlertRules) (lines : List LogLine)
    (portCode : String) (congestion : Option CongestionData)
    (preArrival : Option PreArrivalReport) (openDocs : List Checklist)
    (now : ℤ)
    (hnodup : ((vesselsOf preArrival).map PreArrivalVessel.imo).Nodup) :
    (∀ c, congestion = some c →
      (((∃ a ∈ (evaluateAlerts rules lines portCode congestion preArrival
            openDocs now).1, a.type = .HIGH_CONGESTION) ↔
          (AlertType.HIGH_CONGESTION ∉ rules.disabledTypes ∧
            levelStr c.level ∈ rules.congestionLevels ∧
            isDuplicate (loadAlerts lines) .HIGH_CONGESTION
              ("PORT_" ++ portCode.toUpper) now = false)) ∧
        ∀ a ∈ (evaluateAlerts rules lines portCode congestion preArrival
            openDocs now).1, a.type = .HIGH_CONGESTION →
          a.severity =
            (if c.level = .critical then .CRITICAL else .WARNING))) ∧
    (congestion = none →
      ∀ a ∈ (evaluateAlerts rules lines portCode congestion preArrival
        openDocs now).1, a.type ≠ .HIGH_CONGESTION) ∧
    (∀ v ∈ vesselsOf preArrival,
      ((∃ a ∈ (evaluateAlerts rules lines portCode congestion preArrival
            openDocs now).1, a.type = .ETA_IMMINENT ∧ a.imo = v.imo) ↔
        (AlertType.ETA_IMMINENT ∉ rules.disabledTypes ∧
          v.etaHours ≤ rules.etaThresholdHours ∧
          isDuplicate (loadAlerts lines) .ETA_IMMINENT v.imo now = false)) ∧
      ∀ a ∈ (evaluateAlerts rules lines portCode congestion preArrival
          openDocs now).1, a.type = .ETA_IMMINENT → a.imo = v.imo →
        a.severity = (if v.etaHours ≤ 2 then .CRITICAL else .WARNING)) := by
  refine ⟨?_, ?_, ?_⟩
  · rintro c rfl
    constructor
    · constructor
      · rintro ⟨a, ha, htype⟩
        rcases (mem_evaluateAlerts rules lines portCode (some c) preArrival
            openDocs now a).mp ha with hhc | ⟨v, hv, he | hd | hg⟩
        · exact (highCongestionAlert_isSome_iff rules (loadAlerts lines)
            portCode c now).mp ⟨a, hhc⟩
        · rw [(etaImminentAlert_spec _ _ _ _ _ _ he).1] at htype
          exact absurd htype (by decide)
        · rw [(docOverdueAlert_spec _ _ _ _ _ _ _ hd).1] at htype
          exact absurd htype (by decide)
        · rw [(dgInboundAlert_spec _ _ _ _ _ _ _ hg).1] at htype
          exact absurd htype (by decide)
      · intro hcond
        obtain ⟨a, ha⟩ := (highCongestionAlert_isSome_iff rules
          (loadAlerts lines) portCode c now).mpr hcond
        exact ⟨a, (mem_evaluateAlerts rules lines portCode (some c) preArrival
            openDocs now a).mpr (Or.inl ha),
          (highCongestionAlert_spec _ _ _ _ _ _ ha).1⟩
    · intro a ha htype
      rcases (mem_evaluateAlerts rules lines portCode (some c) preArrival
          openDocs now a).mp ha with hhc | ⟨v, hv, he | hd | hg⟩
      · exact (highCongestionAlert_spec _ _ _ _ _ _ hhc).2
      · rw [(etaImminentAlert_spec _ _ _ _ _ _ he).1] at htype
        exact absurd htype (by decide)
      · rw [(docOverdueAlert_spec _ _ _ _ _ _ _ hd).1] at htype
        exact absurd htype (by decide)
      · rw [(dgInboundAlert_spec _ _ _ _ _ _ _ hg).1] at htype
        exact absurd htype (by decide)
  · rintro rfl a ha
    rcases (mem_evaluateAlerts rules lines portCode none preArrival
        openDocs now a).mp ha with hhc | ⟨v, hv, he | hd | hg⟩
    · rw [highCongestionAlert_none] at hhc
      exact Option.noConfusion hhc
    · rw [(etaImminentAlert_spec _ _ _ _ _ _ he).1]
      decide
    · rw [(docOverdueAlert_spec _ _ _ _ _ _ _ hd).1]
      decide
    · rw [(dgInboundAlert_spec _ _ _ _ _ _ _ hg).1]
      decide
  · intro v hv
    constructor
    · constructor
      · rintro ⟨a, ha, htype, himo⟩
        rcases (mem_evaluateAlerts rules lines portCode congestion preArrival
            openDocs now a).mp ha with hhc | ⟨v2, hv2, he | hd | hg⟩
        · rw [highCongestionAlert_type _ _ _ _ _ _ hhc] at htype
          exact absurd htype (by decide)
        · have himo2 : v2.imo = v.imo :=
            ((etaImminentAlert_spec _ _ _ _ _ _ he).2.1).symm.trans himo
          have hv2v : v2 = v :=
            List.inj_on_of_nodup_map hnodup hv2 hv himo2
          subst hv2v
          exact (etaImminentAlert_isSome_iff rules (loadAlerts lines)
            portCode v2 now).mp ⟨a, he⟩
        · rw [(docOverdueAlert_spec _ _ _ _ _ _ _ hd).1] at htype
          exact absurd htype (by decide)
        · rw [(dgInboundAlert_spec _ _ _ _ _ _ _ hg).1] at htype
          exact absurd htype (by decide)
      · intro hcond
        obtain ⟨a, ha⟩ := (etaImminentAlert_isSome_iff rules
          (loadAlerts lines) portCode v now).mpr hcond
        refine ⟨a, (mem_evaluateAlerts rules lines portCode congestion
            preArrival openDocs now a).mpr
          (Or.inr ⟨v, hv, Or.inl ha⟩), ?_, ?_⟩
        · exact (etaImminentAlert_spec _ _ _ _ _ _ ha).1
        · exact (etaImminentAlert_spec _ _ _ _ _ _ ha).2.1
    · intro a ha htype himo
      rcases (mem_evaluateAlerts rules lines portCode congestion preArrival
          openDocs now a).mp ha with hhc | ⟨v2, hv2, he | hd | hg⟩
      · rw [highCongestionAlert_type _ _ _ _ _ _ hhc] at htype
        exact absurd htype (by decide)
      · have himo2 : v2.imo = v.imo :=
          ((etaImminentAlert_spec _ _ _ _ _ _ he).2.1).symm.trans himo
        have hv2v : v2 = v :=
          List.inj_on_of_nodup_map hnodup hv2 hv himo2
        subst hv2v
        exact (etaImminentAlert_spec _ _ _ _ _ _ he).2.2
      · rw [(docOverdueAlert_spec _ _ _ _ _ _ _ hd).1] at htype
        exact absurd htype (by decide)
      · rw [(dgInboundAlert_spec _ _ _ _ _ _ _ hg).1] at htype
        exact absurd htype (by decide)

/-- C7 witness: an evaluation pass with no snapshot and no pre-arrival list
fires no HIGH_CONGESTION alert. -/
theorem C7_alert_firing_conditions_witness :
    ((vesselsOf none).map PreArrivalVessel.imo).Nodup ∧
    (∀ a ∈ (evaluateAlerts defaultRules [] "INMUN" none none [] 0).1,
      a.type ≠ .HIGH_CONGESTION) := by
  refine ⟨List.nodup_nil, ?_⟩
  exact (C7_alert_firing_conditions defaultRules [] "INMUN" none none [] 0
    List.nodup_nil).2.1 rfl

end Mari8x
